import Mathlib

/-!
Verification of the V4 traffic-control rule compiler of netsim-in-a-box.

The Go code builds `tc`/`ip` command invocations from an HTTP-supplied
`V4NetworkOptions` value and runs them against the kernel. We embed the
compiler as pure functions: the kernel is abstracted as an oracle from
commands to raw outcomes, and `Execute` returns the list of commands it
invoked together with the error it would return (`none` on success).
-/

namespace NetSim

/-- An external command invocation: program name and argument vector. -/
structure Cmd where
  name : String
  args : List String
deriving DecidableEq

/-- Raw outcome of invoking an external command: success, or failure carrying
the effective error text (combined output, or the exit-error text when the
output is empty). -/
inductive CmdResult where
  | ok : CmdResult
  | fail (errStr : String) : CmdResult

/-- Host environment: the capability flags detected at process start
(`isDarwin`, `hasIFB`), and the kernel abstracted as an oracle from commands
to raw outcomes. -/
structure Host where
  isDarwin : Bool
  hasIFB : Bool
  exec : Cmd → CmdResult

/-- `pat` occurs as a contiguous run inside `s`, checked position by
position over character lists. -/
def listContainsRun (s pat : List Char) : Bool :=
  match s with
  | [] => pat == []
  | _ :: rest => pat.isPrefixOf s || listContainsRun rest pat

/-- `strings.Contains`: `pat` occurs as a substring of `s`. -/
def containsSubstr (s pat : String) : Bool :=
  listContainsRun s.toList pat.toList

/-- The benign-cleanup classification applied by `runCommand` (part_001
lines 58-63): a failure whose output matches any of these patterns is
suppressed. -/
def benignOutput (errStr : String) : Bool :=
  containsSubstr errStr "No such file or directory" ||
  containsSubstr errStr "Cannot find specified qdisc" ||
  containsSubstr errStr "Cannot find device" ||
  containsSubstr errStr "Cannot delete qdisc with handle of zero"

/-- `runCommand` (part_001 lines 47-69): invoke the command through the host
oracle; a failure whose output matches a benign pattern is treated as
success (`none`); otherwise the error carries the command and raw output. -/
def runCommand (h : Host) (c : Cmd) : Option String :=
  match h.exec c with
  | CmdResult.ok => none
  | CmdResult.fail errStr =>
      if benignOutput errStr then none
      else some (c.name ++ " [" ++ String.intercalate " " c.args ++ "]: " ++ errStr)

/-- `tc qdisc del dev <iface> root`. -/
def qdiscDelRoot (iface : String) : Cmd :=
  ⟨"tc", ["qdisc", "del", "dev", iface, "root"]⟩

/-- `tc qdisc del dev <iface> ingress`. -/
def qdiscDelIngress (iface : String) : Cmd :=
  ⟨"tc", ["qdisc", "del", "dev", iface, "ingress"]⟩

/-- `cleanupSingleInterface` (part_001 lines 377-393): runs the root and
ingress deletions on the interface (and the ifb0 root deletion when the ifb
capability is present). Every command outcome is ignored (failures are only
logged), and the function always returns no error. The first component
records every command invoked, in order. -/
def cleanupSingleInterface (h : Host) (iface : String) : List Cmd × Option String :=
  (([qdiscDelRoot iface, qdiscDelIngress iface] ++
    if h.hasIFB then [qdiscDelRoot "ifb0"] else []), none)

/-- A planned operation: the command to run, and the message prepended when
wrapping a failure of that command. -/
structure Stage where
  cmd : Cmd
  wrapMsg : String

/-- Run planned operations in order via `runCommand`; the first failing
operation aborts the sequence and returns its wrapped error. The first
component records every command invoked. -/
def runSeq (h : Host) : List Stage → List Cmd × Option String
  | [] => ([], none)
  | s :: rest =>
      match runCommand h s.cmd with
      | some e => ([s.cmd], some (s.wrapMsg ++ ": " ++ e))
      | none =>
          let r := runSeq h rest
          (s.cmd :: r.1, r.2)

/-- `V4NetworkOptions` (part_001 lines 129-144). Go zero values: every field
defaults to the empty string, which means "unset". -/
structure V4NetworkOptions where
  Iface : String := ""
  Direction : String := ""
  ApiPort : String := ""
  Rate : String := ""
  Delay : String := ""
  Jitter : String := ""
  DelayCorrelation : String := ""
  Distribution : String := ""
  Loss : String := ""
  LossCorrelation : String := ""
  Corrupt : String := ""
  Duplicate : String := ""
  Reorder : String := ""
deriving DecidableEq

/-- The delay/jitter/correlation/distribution clause of the netem argument
vector (part_001 lines 246-269). When jitter is the literal string "0" and a
distribution is requested, jitter is forced to "1" (1ms). -/
def V4NetworkOptions.delayClause (v : V4NetworkOptions) : List String :=
  if v.Delay ≠ "" then
    ["delay", v.Delay ++ "ms"] ++
    (if v.Jitter ≠ "" then
      (let jitterVal := if v.Jitter = "0" ∧ v.Distribution ≠ "" then "1" else v.Jitter
       [jitterVal ++ "ms"] ++
       (if v.DelayCorrelation ≠ "" then [v.DelayCorrelation ++ "%"] else []))
     else []) ++
    (if v.Distribution ≠ "" then ["distribution", v.Distribution] else [])
  else []

/-- The loss clause of the netem argument vector (part_001 lines 272-278). -/
def V4NetworkOptions.lossClause (v : V4NetworkOptions) : List String :=
  if v.Loss ≠ "" then
    ["loss", v.Loss ++ "%"] ++
    (if v.LossCorrelation ≠ "" then ["correlation", v.LossCorrelation ++ "%"] else [])
  else []

/-- The corrupt clause (part_001 lines 281-284). -/
def V4NetworkOptions.corruptClause (v : V4NetworkOptions) : List String :=
  if v.Corrupt ≠ "" then ["corrupt", v.Corrupt ++ "%"] else []

/-- The duplicate clause (part_001 lines 285-288). -/
def V4NetworkOptions.duplicateClause (v : V4NetworkOptions) : List String :=
  if v.Duplicate ≠ "" then ["duplicate", v.Duplicate ++ "%"] else []

/-- The reorder clause (part_001 lines 289-292). -/
def V4NetworkOptions.reorderClause (v : V4NetworkOptions) : List String :=
  if v.Reorder ≠ "" then ["reorder", v.Reorder ++ "%"] else []

/-- `hasNetemRules` (part_001 lines 242-292): set exactly when at least one
of the netem field groups is present. -/
def V4NetworkOptions.hasNetemRules (v : V4NetworkOptions) : Bool :=
  v.Delay != "" || v.Loss != "" || v.Corrupt != "" || v.Duplicate != "" || v.Reorder != ""

/-- The full netem argument vector (part_001 lines 241-292): the fixed
qdisc-attachment header followed by the clauses in their fixed order. -/
def V4NetworkOptions.netemArgs (v : V4NetworkOptions) (eff : String) : List String :=
  ["qdisc", "add", "dev", eff, "parent", "1:11", "handle", "10:", "netem"] ++
  v.delayClause ++ v.lossClause ++ v.corruptClause ++ v.duplicateClause ++ v.reorderClause

/-- Root HTB qdisc, default class 11 (part_001 line 222). -/
def rootQdiscCmd (eff : String) : Cmd :=
  ⟨"tc", ["qdisc", "add", "dev", eff, "root", "handle", "1:", "htb", "default", "11"]⟩

/-- The unlimited "fast" (control) class 1:10 (part_001 line 227). -/
def fastClassCmd (eff : String) : Cmd :=
  ⟨"tc", ["class", "add", "dev", eff, "parent", "1:", "classid", "1:10", "htb", "rate", "10gbit"]⟩

/-- The effective rate of the "slow" (simulated) class (part_001 lines
232-235): the user rate in kbit, or 10gbit when unset. -/
def V4NetworkOptions.rateLimit (v : V4NetworkOptions) : String :=
  if v.Rate = "" then "10gbit" else v.Rate ++ "kbit"

/-- The "slow" (simulated) class 1:11 (part_001 line 236). -/
def slowClassCmd (eff rl : String) : Cmd :=
  ⟨"tc", ["class", "add", "dev", eff, "parent", "1:", "classid", "1:11", "htb", "rate", rl]⟩

/-- The prio-1 control-plane filter (part_001 lines 305-307): matches the
API port with the direction-dependent keyword and routes to class 1:10. -/
def apiFilterCmd (eff portMatch apiPort : String) : Cmd :=
  ⟨"tc", ["filter", "add", "dev", eff, "protocol", "ip", "parent", "1:", "prio", "1",
          "u32", "match", "ip", portMatch, apiPort, "0xffff", "flowid", "1:10"]⟩

/-- The prio-2 catch-all filter (part_001 lines 312-314): matches everything
and routes to class 1:11. -/
def catchAllFilterCmd (eff : String) : Cmd :=
  ⟨"tc", ["filter", "add", "dev", eff, "protocol", "all", "parent", "1:", "prio", "2",
          "u32", "match", "u32", "0", "0", "flowid", "1:11"]⟩

/-- `ip link set dev ifb0 up` (part_001 line 201). -/
def ifbUpCmd : Cmd := ⟨"ip", ["link", "set", "dev", "ifb0", "up"]⟩

/-- Attach the ingress qdisc to the real interface (part_001 line 205). -/
def ingressAddCmd (iface : String) : Cmd :=
  ⟨"tc", ["qdisc", "add", "dev", iface, "ingress"]⟩

/-- The mirred filter redirecting all ingress traffic to ifb0 (part_001
lines 209-211). -/
def mirredFilterCmd (iface : String) : Cmd :=
  ⟨"tc", ["filter", "add", "dev", iface, "parent", "ffff:", "protocol", "all",
          "u32", "match", "u32", "0", "0",
          "action", "mirred", "egress", "redirect", "dev", "ifb0"]⟩

/-- The incoming-direction redirect setup (part_001 lines 200-213). -/
def redirectStages (iface : String) : List Stage :=
  [⟨ifbUpCmd, "V4: failed to bring up \x27ifb0\x27"⟩,
   ⟨ingressAddCmd iface, "V4: failed to add ingress qdisc on \x27" ++ iface ++ "\x27"⟩,
   ⟨mirredFilterCmd iface, "V4: failed to add mirred filter on \x27" ++ iface ++ "\x27"⟩]

/-- The HTB-tree, netem and filter operations (part_001 lines 219-316),
parameterized by the effective device and the direction-dependent port-match
keyword, exactly as the source parameterizes them through `effectiveIface`
and `apiFilterPortCmd`. -/
def V4NetworkOptions.htbStages (v : V4NetworkOptions) (eff pkw : String) : List Stage :=
  [⟨rootQdiscCmd eff, "V4: failed to add root htb qdisc"⟩,
   ⟨fastClassCmd eff, "V4: failed to add \x27fast\x27 htb class"⟩,
   ⟨slowClassCmd eff v.rateLimit, "V4: failed to add \x27slow\x27 htb class"⟩] ++
  (if v.hasNetemRules then [⟨⟨"tc", v.netemArgs eff⟩, "V4: failed to add netem qdisc"⟩] else []) ++
  [⟨apiFilterCmd eff pkw v.ApiPort, "V4: failed to add \x27fast\x27 API filter"⟩,
   ⟨catchAllFilterCmd eff, "V4: failed to add default \x27slow\x27 filter"⟩]

/-- Error message for a missing interface (part_001 line 177). -/
def ifaceRequiredMsg : String := "V4: \x27iface\x27 is required"

/-- Error message for a missing direction (part_001 line 180). -/
def directionRequiredMsg : String := "V4: \x27direction\x27 is required"

/-- Error message when incoming direction is requested without the ifb
capability (part_001 line 197). -/
def ifbMissingMsg : String :=
  "V4: \x27ifb\x27 module not loaded on host. \x27incoming\x27 rules cannot be applied"

/-- `V4NetworkOptions.Execute` (part_001 lines 175-319): validate the
required fields, short-circuit on Darwin, clean the interface, set up the
ifb redirect for incoming direction (requiring the capability flag), then
run the HTB-tree stages on the effective device. Returns the list of
commands invoked and the error returned (`none` on success). -/
def V4NetworkOptions.Execute (h : Host) (v : V4NetworkOptions) : List Cmd × Option String :=
  if v.Iface = "" then ([], some ifaceRequiredMsg)
  else if v.Direction = "" then ([], some directionRequiredMsg)
  else if h.isDarwin then ([], none)
  else
    let cl := cleanupSingleInterface h v.Iface
    match cl.2 with
    | some e => (cl.1, some ("V4: cleanup failed before setup: " ++ e))
    | none =>
        if v.Direction = "incoming" then
          if h.hasIFB then
            let r := runSeq h (redirectStages v.Iface ++ v.htbStages "ifb0" "dport")
            (cl.1 ++ r.1, r.2)
          else (cl.1, some ifbMissingMsg)
        else
          let r := runSeq h (v.htbStages v.Iface "sport")
          (cl.1 ++ r.1, r.2)

/-- Kind of IP held by an address: an IPv4 (To4 succeeds), a non-IPv4 IP
(To4 fails, To16 succeeds), or an invalid IP (both fail). -/
inductive IPKind where
  | v4 : IPKind
  | v6 : IPKind
  | invalid : IPKind
deriving DecidableEq

/-- An address returned by the OS for an interface: either an `*net.IPNet`
carrying an IP of some kind, or some other address type. -/
inductive NetAddr where
  | ipnet (k : IPKind) : NetAddr
  | other : NetAddr
deriving DecidableEq

/-- A host interface as enumerated by the OS: its name, the relevant flag
bits, whether querying its addresses fails, and its address list. -/
structure NetInterface where
  name : String
  pointToPoint : Bool
  up : Bool
  loopback : Bool
  addrsErr : Bool
  addrs : List NetAddr
deriving DecidableEq

/-- The record built per kept interface; we track whether the IPv4 and IPv6
slots were populated. -/
structure TcInterfaceM where
  name : String
  hasIPv4 : Bool
  hasIPv6 : Bool
deriving DecidableEq

/-- The per-interface record building loop of `queryIPNetInterfaces`
(part_001 lines 439-454, with the nil filter used by its callers): each
`*net.IPNet` address populates the IPv4 slot when `To4` succeeds, else the
IPv6 slot when `To16` succeeds. -/
def buildTcInterface (i : NetInterface) : TcInterfaceM :=
  i.addrs.foldl
    (fun ti a =>
      match a with
      | NetAddr.ipnet IPKind.v4 => { ti with hasIPv4 := true }
      | NetAddr.ipnet IPKind.v6 => { ti with hasIPv6 := true }
      | _ => ti)
    { name := i.name, hasIPv4 := false, hasIPv6 := false }

/-- `queryIPNetInterfaces` (part_001 lines 416-462, nil filter): skip
point-to-point, down, and loopback interfaces; fail on an address-query
error; keep an interface only when an IPv4 or IPv6 slot was populated. -/
def queryIPNetInterfaces : List NetInterface → Except String (List TcInterfaceM)
  | [] => Except.ok []
  | i :: rest =>
      if i.pointToPoint then queryIPNetInterfaces rest
      else if !i.up then queryIPNetInterfaces rest
      else if i.loopback then queryIPNetInterfaces rest
      else if i.addrsErr then Except.error ("query addrs of " ++ i.name)
      else
        match queryIPNetInterfaces rest with
        | Except.error e => Except.error e
        | Except.ok ts =>
            let ti := buildTcInterface i
            Except.ok (if ti.hasIPv4 || ti.hasIPv6 then ti :: ts else ts)

/-- An address that resolves to an IPv4 or an IPv6. -/
def addrHasIP (a : NetAddr) : Bool :=
  match a with
  | NetAddr.ipnet IPKind.v4 => true
  | NetAddr.ipnet IPKind.v6 => true
  | _ => false

/-- The inclusion condition of the claim: not point-to-point,
administratively up, not loopback, and at least one address resolving to an
IPv4 or IPv6 address. -/
def usableInterface (i : NetInterface) : Bool :=
  !i.pointToPoint && i.up && !i.loopback && i.addrs.any addrHasIP

/-- The space character, written via its code point. -/
def spaceChar : Char := Char.ofNat 32

/-- `strings.Split(s, " ")` on the character list of the command string:
split at every single space, keeping empty pieces. -/
def splitSpace : List Char → List (List Char)
  | [] => [[]]
  | c :: rest =>
      if c = spaceChar then [] :: splitSpace rest
      else
        match splitSpace rest with
        | [] => [[c]]
        | t :: ts => (c :: t) :: ts

/-- The decision logic of `handleTcRaw` (part_001 lines 336-359): an empty
command is rejected; otherwise the command is split on single spaces and a
process is spawned exactly when the first piece is "tc" or "ip". -/
def handleTcRawExecutes (cmd : String) : Bool :=
  if cmd = "" then false
  else
    match splitSpace cmd.toList with
    | [] => false
    | arg0 :: _ => arg0 == "tc".toList || arg0 == "ip".toList

/-- The first whitespace-separated token of a string, as the claim words it:
skip leading whitespace, then take up to the next whitespace. This
formalizes the claim wording, not the source. -/
def firstWhitespaceToken (cmd : String) : List Char :=
  (cmd.toList.dropWhile Char.isWhitespace).takeWhile (fun c => !c.isWhitespace)

/-- A host whose command oracle always succeeds, with no ifb capability. -/
def okHost : Host := ⟨false, false, fun _ => CmdResult.ok⟩

/-- A host whose command oracle always succeeds, with the ifb capability. -/
def okHostIFB : Host := ⟨false, true, fun _ => CmdResult.ok⟩

/-- A host whose every command fails with a missing-device output. -/
def failBenignHost : Host := ⟨false, false, fun _ => CmdResult.fail "Cannot find device eth0"⟩

/-- Decimal value of a nonempty all-digit character list. -/
def decValue : List Char → Option Nat
  | [] => none
  | cs =>
      if cs.all Char.isDigit
      then some (cs.foldl (fun n c => n * 10 + (c.toNat - 48)) 0)
      else none

/-- The priority number of a `tc filter add ... prio N ...` command, read
from its fixed argument positions. -/
def filterPrioNum (c : Cmd) : Option Nat :=
  match c.args[8]?, c.args[9]? with
  | some p, some n => if p = "prio" then decValue n.toList else none
  | _, _ => none

/-- The flowid a filter command routes to: the trailing `flowid <classid>`
pair of its argument vector. -/
def filterFlowId (c : Cmd) : Option String :=
  match c.args.reverse with
  | fid :: kw :: _ => if kw = "flowid" then some fid else none
  | _ => none

/-- A spec with valid interface and direction and every optional field
unset. -/
def noopSpec : V4NetworkOptions :=
  { Iface := "eth0", Direction := "outgoing", ApiPort := "2023" }

/-- An incoming-direction spec with every optional field unset. -/
def incomingSpec : V4NetworkOptions :=
  { Iface := "eth0", Direction := "incoming", ApiPort := "2023" }

/-- Delay with a requested distribution and jitter left unset. -/
def distUnsetJitterSpec : V4NetworkOptions :=
  { Iface := "eth0", Direction := "outgoing", ApiPort := "2023",
    Delay := "50", Distribution := "normal" }

/-- Delay with a requested distribution and jitter set to zero. -/
def distZeroJitterSpec : V4NetworkOptions :=
  { Iface := "eth0", Direction := "outgoing", ApiPort := "2023",
    Delay := "50", Jitter := "0", Distribution := "normal" }

/-- A rate-limited spec. -/
def ratedSpec : V4NetworkOptions :=
  { Iface := "eth0", Direction := "outgoing", ApiPort := "2023", Rate := "5000" }

/-- The claim C6 input: delay 50ms, jitter 10ms, correlation 25%, loss 2%. -/
def delayLossSpec : V4NetworkOptions :=
  { Iface := "eth0", Direction := "outgoing", ApiPort := "2023",
    Delay := "50", Jitter := "10", DelayCorrelation := "25", Loss := "2" }

/-- The end-to-end style spec used for the direction-symmetry witness. -/
def symSpec : V4NetworkOptions :=
  { Iface := "eth0", Direction := "outgoing", ApiPort := "2023",
    Rate := "5000", Delay := "100", Loss := "1" }

/-- A five-interface inventory sample: loopback, a usable dual-stack
interface, a down interface, a point-to-point tunnel, and an interface with
no IP address. -/
def sampleIfaces : List NetInterface :=
  [⟨"lo", false, true, true, false, [NetAddr.ipnet IPKind.v4]⟩,
   ⟨"eth0", false, true, false, false, [NetAddr.ipnet IPKind.v4, NetAddr.ipnet IPKind.v6]⟩,
   ⟨"docker0", false, false, false, false, [NetAddr.ipnet IPKind.v4]⟩,
   ⟨"tun0", true, true, false, false, [NetAddr.ipnet IPKind.v4]⟩,
   ⟨"dummy0", false, true, false, false, [NetAddr.other]⟩]

/-! ### Helper lemmas -/

/-- With an always-successful oracle, `runSeq` invokes every planned command
in order and reports success. -/
theorem runSeq_allok (h : Host) (hok : ∀ c, h.exec c = CmdResult.ok) :
    ∀ stages : List Stage, runSeq h stages = (stages.map Stage.cmd, none) := by
  intro stages
  induction stages with
  | nil => rfl
  | cons s rest ih => simp [runSeq, runCommand, hok s.cmd, ih]

/-- When `runSeq` reports success, its invocation trace is exactly the
planned command list. -/
theorem runSeq_succ_trace (h : Host) :
    ∀ stages : List Stage,
      (runSeq h stages).2 = none → (runSeq h stages).1 = stages.map Stage.cmd := by
  intro stages
  induction stages with
  | nil => intro _; rfl
  | cons s rest ih =>
      intro hsucc
      cases hrc : runCommand h s.cmd with
      | some e => simp [runSeq, hrc] at hsucc
      | none =>
          simp only [runSeq, hrc] at hsucc ⊢
          simp [ih hsucc]

/-- The planned HTB commands: three tree commands, the optional netem
command, then the two filters, in that order. -/
theorem htbStages_map (v : V4NetworkOptions) (eff pkw : String) :
    (v.htbStages eff pkw).map Stage.cmd =
      ([rootQdiscCmd eff, fastClassCmd eff, slowClassCmd eff v.rateLimit] ++
        (if v.hasNetemRules then [(⟨"tc", v.netemArgs eff⟩ : Cmd)] else [])) ++
      [apiFilterCmd eff pkw v.ApiPort, catchAllFilterCmd eff] := by
  by_cases hn : v.hasNetemRules <;> simp [V4NetworkOptions.htbStages, hn]

/-! ### Claim C1 -/

/-- Claim C1, counterexample: a spec with valid interface and direction and
no rate and no netem fields does NOT lead to zero command executions —
`Execute` on such a spec (all commands succeeding, no ifb capability)
invokes seven commands and succeeds. -/
theorem c1_counterexample :
    (V4NetworkOptions.Execute okHost noopSpec).1.length = 7 ∧
    (V4NetworkOptions.Execute okHost noopSpec).1 ≠ [] ∧
    (V4NetworkOptions.Execute okHost noopSpec).2 = none := by decide

/-- Claim C1, amended: for a spec with valid interface and non-incoming
direction and no rate and no netem fields, `Execute` skips only the netem
qdisc operation; with every command succeeding and no ifb capability it
still runs the two cleanup deletions, the root qdisc, both classes (the
simulated class at the unlimited 10gbit default), and both filters — seven
commands in total, none of them a netem operation. -/
theorem c1_amended (h : Host) (v : V4NetworkOptions)
    (hd : h.isDarwin = false) (hifb : h.hasIFB = false)
    (hi : v.Iface ≠ "") (hdir : v.Direction ≠ "") (hout : v.Direction ≠ "incoming")
    (hr : v.Rate = "") (hde : v.Delay = "") (hlo : v.Loss = "")
    (hco : v.Corrupt = "") (hdu : v.Duplicate = "") (hre : v.Reorder = "")
    (hok : ∀ c, h.exec c = CmdResult.ok) :
    V4NetworkOptions.Execute h v =
      ([qdiscDelRoot v.Iface, qdiscDelIngress v.Iface,
        rootQdiscCmd v.Iface, fastClassCmd v.Iface, slowClassCmd v.Iface "10gbit",
        apiFilterCmd v.Iface "sport" v.ApiPort, catchAllFilterCmd v.Iface], none) := by
  have hnet : v.hasNetemRules = false := by
    simp [V4NetworkOptions.hasNetemRules, hde, hlo, hco, hdu, hre]
  have hrl : v.rateLimit = "10gbit" := by simp [V4NetworkOptions.rateLimit, hr]
  simp [V4NetworkOptions.Execute, hi, hdir, hd, hout, cleanupSingleInterface, hifb,
        runSeq_allok h hok, V4NetworkOptions.htbStages, hnet, hrl]

/-- Claim C1 witness: the amended statement evaluated on the concrete no-op
spec over the all-successful host. -/
theorem c1_witness :
    V4NetworkOptions.Execute okHost noopSpec =
      ([qdiscDelRoot "eth0", qdiscDelIngress "eth0",
        rootQdiscCmd "eth0", fastClassCmd "eth0", slowClassCmd "eth0" "10gbit",
        apiFilterCmd "eth0" "sport" "2023", catchAllFilterCmd "eth0"], none) :=
  c1_amended okHost noopSpec rfl rfl (by decide) (by decide) (by decide)
    rfl rfl rfl rfl rfl rfl (fun _ => rfl)

/-! ### Claim C2 -/

/-- Claim C2, counterexample: incoming direction without the ifb capability
does return the capability error, but two cleanup commands are executed
before the failure is returned — not zero. -/
theorem c2_counterexample :
    (V4NetworkOptions.Execute okHost incomingSpec).2 = some ifbMissingMsg ∧
    (V4NetworkOptions.Execute okHost incomingSpec).1.length = 2 ∧
    (V4NetworkOptions.Execute okHost incomingSpec).1 ≠ [] := by decide

/-- Claim C2, amended: with the ifb capability flagged absent, an incoming
spec makes `Execute` return the CapabilityUnavailable error, and the only
commands executed before the failure are the two unconditional cleanup
deletions (root and ingress qdisc of the real interface) — no
topology-building command runs. -/
theorem c2_amended (h : Host) (v : V4NetworkOptions)
    (hd : h.isDarwin = false) (hifb : h.hasIFB = false)
    (hi : v.Iface ≠ "") (hdir : v.Direction = "incoming") :
    V4NetworkOptions.Execute h v =
      ([qdiscDelRoot v.Iface, qdiscDelIngress v.Iface], some ifbMissingMsg) := by
  have hne : v.Direction ≠ "" := by simp [hdir]
  simp [V4NetworkOptions.Execute, hi, hne, hd, hdir, cleanupSingleInterface, hifb]

/-- Claim C2 witness: the amended statement evaluated on the concrete
incoming spec over a host without the ifb capability. -/
theorem c2_witness :
    V4NetworkOptions.Execute okHost incomingSpec =
      ([qdiscDelRoot "eth0", qdiscDelIngress "eth0"], some ifbMissingMsg) :=
  c2_amended okHost incomingSpec rfl rfl (by decide) rfl

/-! ### Claim C8 -/

/-- Claim C8: a spec with an empty interface or an empty direction makes
`Execute` return the corresponding InvalidSpec error with an empty
invocation trace — no command of any kind, including no cleanup. -/
theorem c8_invalid_spec (h : Host) (v : V4NetworkOptions)
    (hmiss : v.Iface = "" ∨ v.Direction = "") :
    (V4NetworkOptions.Execute h v).1 = [] ∧
    ((V4NetworkOptions.Execute h v).2 = some ifaceRequiredMsg ∨
     (V4NetworkOptions.Execute h v).2 = some directionRequiredMsg) := by
  by_cases hi : v.Iface = ""
  · simp [V4NetworkOptions.Execute, hi]
  · rcases hmiss with h1 | h2
    · exact absurd h1 hi
    · simp [V4NetworkOptions.Execute, hi, h2]

/-- Claim C8 witness: the statement evaluated on a spec with an empty
interface field. -/
theorem c8_witness :
    (V4NetworkOptions.Execute okHost { Direction := "outgoing" }).1 = [] ∧
    ((V4NetworkOptions.Execute okHost { Direction := "outgoing" }).2 = some ifaceRequiredMsg ∨
     (V4NetworkOptions.Execute okHost { Direction := "outgoing" }).2 = some directionRequiredMsg) :=
  c8_invalid_spec okHost { Direction := "outgoing" } (Or.inl rfl)

/-! ### Claim C5 -/

/-- Claim C5: `cleanupSingleInterface` (the body of Reset) returns no error
for every host state and interface name — in particular a second call in a
row, with the kernel in whatever state the first call left, still returns
no error — and a command failure whose output matches a benign
already-absent pattern is classified as success by `runCommand`. -/
theorem c5_reset_idempotent (h : Host) (iface : String) (c : Cmd) (errStr : String) :
    (cleanupSingleInterface h iface).2 = none ∧
    (h.exec c = CmdResult.fail errStr → benignOutput errStr = true →
      runCommand h c = none) := by
  refine ⟨rfl, ?_⟩
  intro hf hb
  simp [runCommand, hf, hb]

/-- Claim C5 witness: evaluated on a host whose every command fails with a
missing-device output; the cleanup still reports success, and `runCommand`
classifies the failure as benign. -/
theorem c5_witness :
    (cleanupSingleInterface failBenignHost "eth0").2 = none ∧
    runCommand failBenignHost (qdiscDelRoot "eth0") = none :=
  ⟨(c5_reset_idempotent failBenignHost "eth0" (qdiscDelRoot "eth0") "Cannot find device eth0").1,
   (c5_reset_idempotent failBenignHost "eth0" (qdiscDelRoot "eth0") "Cannot find device eth0").2
     rfl (by decide)⟩

/-! ### Claim C6 -/

/-- Claim C6: for delay 50ms, jitter 10ms, delay correlation 25%, loss 2%
and nothing else, the compiled netem argument vector ends in exactly the
tokens `delay 50ms 10ms 25% loss 2%`, and the corresponding tc command is
part of the executed plan. -/
theorem c6_netem_order :
    V4NetworkOptions.netemArgs delayLossSpec "eth0" =
      ["qdisc", "add", "dev", "eth0", "parent", "1:11", "handle", "10:", "netem",
       "delay", "50ms", "10ms", "25%", "loss", "2%"] ∧
    (⟨"tc", V4NetworkOptions.netemArgs delayLossSpec "eth0"⟩ : Cmd) ∈
      (V4NetworkOptions.Execute okHost delayLossSpec).1 := by decide

/-! ### Claim C3 -/

/-- Claim C3, counterexample: with delay set, distribution requested and
jitter UNSET, the compiled delay clause is `delay 50ms distribution normal`
— no jitter token at all appears (the only ms-suffixed token of the whole
netem vector is the delay value), so no non-zero jitter value precedes the
distribution keyword. -/
theorem c3_counterexample :
    V4NetworkOptions.delayClause distUnsetJitterSpec =
      ["delay", "50ms", "distribution", "normal"] ∧
    (∀ t ∈ V4NetworkOptions.netemArgs distUnsetJitterSpec "eth0",
      "ms".toList.isSuffixOf t.toList = true → t = "50ms") := by decide

/-- Claim C3, amended: the coercion happens only when jitter is explicitly
the string "0": then the clause carries the forced non-zero value `1ms`
before the `distribution` keyword. When jitter is unset, no jitter token is
emitted and the distribution keyword is still appended right after the
delay value. -/
theorem c3_amended (v : V4NetworkOptions)
    (hd : v.Delay ≠ "") (hdist : v.Distribution ≠ "") :
    (v.Jitter = "0" →
      v.delayClause =
        ["delay", v.Delay ++ "ms", "1ms"] ++
        (if v.DelayCorrelation ≠ "" then [v.DelayCorrelation ++ "%"] else []) ++
        ["distribution", v.Distribution]) ∧
    (v.Jitter = "" →
      v.delayClause = ["delay", v.Delay ++ "ms", "distribution", v.Distribution]) := by
  constructor
  · intro hj
    simp [V4NetworkOptions.delayClause, hd, hdist, hj]
  · intro hj
    simp [V4NetworkOptions.delayClause, hd, hdist, hj]

/-- Claim C3 witness: the amended statement evaluated on the concrete
zero-jitter spec. -/
theorem c3_witness :
    V4NetworkOptions.delayClause distZeroJitterSpec =
      ["delay", "50ms", "1ms", "distribution", "normal"] :=
  (c3_amended distZeroJitterSpec (by decide) (by decide)).1 rfl

/-! ### Claim C4 -/

/-- Claim C4: whenever `Execute` succeeds on a rate-limited spec (whatever
the direction), its trace ends with the control-plane-port filter
immediately followed by the catch-all filter; the port filter carries prio
1 and routes to the control class 1:10, the catch-all carries prio 2 and
routes to the simulated class 1:11, so the control filter sits at the
strictly lower (stronger) priority number and is never shadowed. -/
theorem c4_control_exemption (h : Host) (v : V4NetworkOptions)
    (_hrate : v.Rate ≠ "") (hd : h.isDarwin = false)
    (hsucc : (V4NetworkOptions.Execute h v).2 = none) :
    ∃ eff pkw pre,
      (pkw = "sport" ∨ pkw = "dport") ∧
      (V4NetworkOptions.Execute h v).1 =
        pre ++ [apiFilterCmd eff pkw v.ApiPort, catchAllFilterCmd eff] ∧
      filterPrioNum (apiFilterCmd eff pkw v.ApiPort) = some 1 ∧
      filterPrioNum (catchAllFilterCmd eff) = some 2 ∧
      filterFlowId (apiFilterCmd eff pkw v.ApiPort) = some "1:10" ∧
      filterFlowId (catchAllFilterCmd eff) = some "1:11" := by
  have hprio1 : ∀ eff pkw p, filterPrioNum (apiFilterCmd eff pkw p) = some 1 := by
    intro eff pkw p
    simp only [filterPrioNum, apiFilterCmd]
    norm_num [List.getElem?_cons_zero, List.getElem?_cons_succ]
    decide
  have hprio2 : ∀ eff, filterPrioNum (catchAllFilterCmd eff) = some 2 := by
    intro eff
    simp only [filterPrioNum, catchAllFilterCmd]
    norm_num [List.getElem?_cons_zero, List.getElem?_cons_succ]
    decide
  by_cases hi : v.Iface = ""
  · simp [V4NetworkOptions.Execute, hi] at hsucc
  by_cases hdir : v.Direction = ""
  · simp [V4NetworkOptions.Execute, hi, hdir] at hsucc
  by_cases hinc : v.Direction = "incoming"
  · by_cases hifb : h.hasIFB
    · have hrun : (runSeq h (redirectStages v.Iface ++ v.htbStages "ifb0" "dport")).2 = none := by
        simpa [V4NetworkOptions.Execute, cleanupSingleInterface, hi, hdir, hd, hinc, hifb]
          using hsucc
      have htr := runSeq_succ_trace h _ hrun
      refine ⟨"ifb0", "dport",
        (cleanupSingleInterface h v.Iface).1 ++ (redirectStages v.Iface).map Stage.cmd ++
          ([rootQdiscCmd "ifb0", fastClassCmd "ifb0", slowClassCmd "ifb0" v.rateLimit] ++
            (if v.hasNetemRules then [(⟨"tc", v.netemArgs "ifb0"⟩ : Cmd)] else [])),
        Or.inr rfl, ?_, hprio1 _ _ _, hprio2 _, rfl, rfl⟩
      simp [V4NetworkOptions.Execute, cleanupSingleInterface, hi, hdir, hd, hinc, hifb,
            htr, htbStages_map, List.map_append, List.append_assoc]
    · simp [V4NetworkOptions.Execute, cleanupSingleInterface, hi, hdir, hd, hinc, hifb]
        at hsucc
  · have hrun : (runSeq h (v.htbStages v.Iface "sport")).2 = none := by
      simpa [V4NetworkOptions.Execute, cleanupSingleInterface, hi, hdir, hd, hinc] using hsucc
    have htr := runSeq_succ_trace h _ hrun
    refine ⟨v.Iface, "sport",
      (cleanupSingleInterface h v.Iface).1 ++
        ([rootQdiscCmd v.Iface, fastClassCmd v.Iface, slowClassCmd v.Iface v.rateLimit] ++
          (if v.hasNetemRules then [(⟨"tc", v.netemArgs v.Iface⟩ : Cmd)] else [])),
      Or.inl rfl, ?_, hprio1 _ _ _, hprio2 _, rfl, rfl⟩
    simp [V4NetworkOptions.Execute, cleanupSingleInterface, hi, hdir, hd, hinc,
          htr, htbStages_map, List.map_append, List.append_assoc]

/-- Claim C4 witness: the statement evaluated on the concrete rate-limited
outgoing spec over the all-successful host. -/
theorem c4_witness :
    ratedSpec.Rate ≠ "" ∧ okHost.isDarwin = false ∧
    (V4NetworkOptions.Execute okHost ratedSpec).2 = none ∧
    (∃ eff pkw pre,
      (pkw = "sport" ∨ pkw = "dport") ∧
      (V4NetworkOptions.Execute okHost ratedSpec).1 =
        pre ++ [apiFilterCmd eff pkw ratedSpec.ApiPort, catchAllFilterCmd eff] ∧
      filterPrioNum (apiFilterCmd eff pkw ratedSpec.ApiPort) = some 1 ∧
      filterPrioNum (catchAllFilterCmd eff) = some 2 ∧
      filterFlowId (apiFilterCmd eff pkw ratedSpec.ApiPort) = some "1:10" ∧
      filterFlowId (catchAllFilterCmd eff) = some "1:11") :=
  ⟨by decide, rfl, rfl, c4_control_exemption okHost ratedSpec (by decide) rfl rfl⟩

/-! ### Claim C7 -/

/-- Claim C7: with the redirect capability present and all commands
succeeding, the outgoing plan is cleanup followed by the HTB stage list
instantiated at the real interface with the source-port keyword, and the
incoming plan on the same spec is the same cleanup, then the redirect
setup, then the SAME HTB stage list function instantiated at the redirect
device `ifb0` with the destination-port keyword; flipping the direction
field alone does not change the HTB stage list, and the port keyword sits
at the same filter-argument position in both instantiations. -/
theorem c7_direction_symmetry (h : Host) (v : V4NetworkOptions)
    (hd : h.isDarwin = false) (hifb : h.hasIFB = true)
    (hi : v.Iface ≠ "") (hdir : v.Direction = "outgoing")
    (hok : ∀ c, h.exec c = CmdResult.ok) :
    V4NetworkOptions.Execute h v =
      ((cleanupSingleInterface h v.Iface).1 ++
        (v.htbStages v.Iface "sport").map Stage.cmd, none) ∧
    V4NetworkOptions.Execute h { v with Direction := "incoming" } =
      ((cleanupSingleInterface h v.Iface).1 ++ (redirectStages v.Iface).map Stage.cmd ++
        (v.htbStages "ifb0" "dport").map Stage.cmd, none) ∧
    ({ v with Direction := "incoming" } : V4NetworkOptions).htbStages "ifb0" "dport" =
      v.htbStages "ifb0" "dport" ∧
    (apiFilterCmd v.Iface "sport" v.ApiPort).args[13]? = some "sport" ∧
    (apiFilterCmd "ifb0" "dport" v.ApiPort).args[13]? = some "dport" := by
  have hne : v.Direction ≠ "" := by simp [hdir]
  have hno : v.Direction ≠ "incoming" := by simp [hdir]
  have hsame : ({ v with Direction := "incoming" } : V4NetworkOptions).htbStages "ifb0" "dport" =
      v.htbStages "ifb0" "dport" := rfl
  refine ⟨?_, ?_, hsame, rfl, rfl⟩
  · simp [V4NetworkOptions.Execute, cleanupSingleInterface, hi, hne, hd, hno,
          runSeq_allok h hok]
  · simp [V4NetworkOptions.Execute, cleanupSingleInterface, hi, hd, hifb,
          runSeq_allok h hok, hsame, List.map_append, List.append_assoc]

/-- Claim C7 witness: the statement evaluated on the concrete end-to-end
spec over the all-successful ifb-capable host. -/
theorem c7_witness :
    V4NetworkOptions.Execute okHostIFB symSpec =
      ((cleanupSingleInterface okHostIFB symSpec.Iface).1 ++
        (symSpec.htbStages symSpec.Iface "sport").map Stage.cmd, none) ∧
    V4NetworkOptions.Execute okHostIFB { symSpec with Direction := "incoming" } =
      ((cleanupSingleInterface okHostIFB symSpec.Iface).1 ++
        (redirectStages symSpec.Iface).map Stage.cmd ++
        (symSpec.htbStages "ifb0" "dport").map Stage.cmd, none) ∧
    ({ symSpec with Direction := "incoming" } : V4NetworkOptions).htbStages "ifb0" "dport" =
      symSpec.htbStages "ifb0" "dport" ∧
    (apiFilterCmd symSpec.Iface "sport" symSpec.ApiPort).args[13]? = some "sport" ∧
    (apiFilterCmd "ifb0" "dport" symSpec.ApiPort).args[13]? = some "dport" :=
  c7_direction_symmetry okHostIFB symSpec rfl rfl (by decide) rfl (fun _ => rfl)

/-! ### Claim C9 -/

/-- The two kept-address slots of the built record, together, witness
exactly whether some address resolves to an IPv4 or IPv6. -/
theorem buildTcInterface_fold (l : List NetAddr) :
    ∀ ti : TcInterfaceM,
      (((l.foldl
          (fun ti a =>
            match a with
            | NetAddr.ipnet IPKind.v4 => { ti with hasIPv4 := true }
            | NetAddr.ipnet IPKind.v6 => { ti with hasIPv6 := true }
            | _ => ti)
          ti).hasIPv4 ||
        (l.foldl
          (fun ti a =>
            match a with
            | NetAddr.ipnet IPKind.v4 => { ti with hasIPv4 := true }
            | NetAddr.ipnet IPKind.v6 => { ti with hasIPv6 := true }
            | _ => ti)
          ti).hasIPv6) = (ti.hasIPv4 || ti.hasIPv6 || l.any addrHasIP)) := by
  induction l with
  | nil => intro ti; simp
  | cons a rest ih =>
      intro ti
      obtain ⟨n, h4, h6⟩ := ti
      cases a with
      | other => simpa [addrHasIP] using ih ⟨n, h4, h6⟩
      | ipnet k =>
          cases k with
          | v4 =>
              have := ih ⟨n, true, h6⟩
              simp [addrHasIP, List.foldl, this]
          | v6 =>
              have := ih ⟨n, h4, true⟩
              simp [addrHasIP, List.foldl, this]
          | invalid => simpa [addrHasIP] using ih ⟨n, h4, h6⟩

/-- An interface record is kept exactly when one of its addresses resolves
to an IPv4 or IPv6 address. -/
theorem buildTcInterface_slots (i : NetInterface) :
    ((buildTcInterface i).hasIPv4 || (buildTcInterface i).hasIPv6) =
      i.addrs.any addrHasIP := by
  simpa [buildTcInterface] using
    buildTcInterface_fold i.addrs ⟨i.name, false, false⟩

/-- Claim C9: whenever the inventory query succeeds, its result is exactly
the enumerated interfaces that are not point-to-point, up, not loopback and
carry at least one IPv4/IPv6 address, in enumeration order — interfaces
with no such address are dropped from the result, not errors. -/
theorem c9_inventory_filter :
    ∀ (ifaces : List NetInterface) (res : List TcInterfaceM),
      queryIPNetInterfaces ifaces = Except.ok res →
      res = (ifaces.filter usableInterface).map buildTcInterface := by
  intro ifaces
  induction ifaces with
  | nil =>
      intro res h
      simp [queryIPNetInterfaces] at h
      simp [← h]
  | cons i rest ih =>
      intro res h
      by_cases hp : i.pointToPoint
      · simp only [queryIPNetInterfaces, hp, if_true] at h
        simp [List.filter_cons, usableInterface, hp, ih res h]
      by_cases hu : i.up
      case neg =>
        simp only [queryIPNetInterfaces, hp, hu] at h
        simp only [if_false, Bool.not_true, Bool.not_false, ite_true, ite_false] at h
        simp [List.filter_cons, usableInterface, hp, hu, ih res h]
      case pos =>
      by_cases hl : i.loopback
      · simp only [queryIPNetInterfaces, hp, hu, hl] at h
        simp only [if_false, Bool.not_true, Bool.not_false, ite_true, ite_false] at h
        simp [List.filter_cons, usableInterface, hp, hu, hl, ih res h]
      by_cases he : i.addrsErr
      · simp [queryIPNetInterfaces, hp, hu, hl, he] at h
      · cases hq : queryIPNetInterfaces rest with
        | error e =>
            simp [queryIPNetInterfaces, hp, hu, hl, he, hq] at h
        | ok ts =>
            simp only [queryIPNetInterfaces, hp, hu, hl, he, hq] at h
            have hts := ih ts hq
            by_cases hany : i.addrs.any addrHasIP
            · have hif : ((buildTcInterface i).hasIPv4 || (buildTcInterface i).hasIPv6) = true := by
                rw [buildTcInterface_slots]; exact hany
              rw [hif] at h
              simp at h
              simp [← h, List.filter_cons, usableInterface, hp, hu, hl, hany, hts]
            · have hif : ((buildTcInterface i).hasIPv4 || (buildTcInterface i).hasIPv6) = false := by
                rw [buildTcInterface_slots]; simpa using hany
              rw [hif] at h
              simp at h
              simp [← h, List.filter_cons, usableInterface, hp, hu, hl, hany, hts]

/-- Claim C9 witness: the statement evaluated on the five-interface sample
(loopback, usable dual-stack, down, point-to-point, address-less). -/
theorem c9_witness :
    queryIPNetInterfaces sampleIfaces =
      Except.ok [({ name := "eth0", hasIPv4 := true, hasIPv6 := true } : TcInterfaceM)] ∧
    [({ name := "eth0", hasIPv4 := true, hasIPv6 := true } : TcInterfaceM)] =
      (sampleIfaces.filter usableInterface).map buildTcInterface :=
  ⟨rfl, c9_inventory_filter sampleIfaces
    [({ name := "eth0", hasIPv4 := true, hasIPv6 := true } : TcInterfaceM)] rfl⟩

/-! ### Claim C10 -/

/-- The first piece of a single-space split is the run of characters before
the first space. -/
theorem splitSpace_head :
    ∀ l : List Char,
      ∃ ts, splitSpace l = (l.takeWhile (fun c => c != spaceChar)) :: ts := by
  intro l
  induction l with
  | nil => exact ⟨[], rfl⟩
  | cons c rest ih =>
      by_cases hc : c = spaceChar
      · refine ⟨splitSpace rest, ?_⟩
        simp [splitSpace, hc, List.takeWhile_cons]
      · obtain ⟨ts, hts⟩ := ih
        refine ⟨ts, ?_⟩
        simp [splitSpace, hc, hts, List.takeWhile_cons]

/-- Claim C10, counterexample: for the request body `" tc qdisc show"` the
first whitespace-separated token is exactly "tc", yet the endpoint rejects
the command and spawns no process (the split on single spaces yields an
empty first piece). -/
theorem c10_counterexample :
    firstWhitespaceToken " tc qdisc show" = "tc".toList ∧
    handleTcRawExecutes " tc qdisc show" = false := by decide

/-- Claim C10, amended: the raw endpoint spawns a process if and only if
the run of characters strictly before the first space character — the
first piece of a split on single spaces, not a whitespace-tokenizer — is
exactly "tc" or "ip"; any other prefix (including an empty one from a
leading space, or a tab-joined token) is rejected with no process
spawned. -/
theorem c10_first_token (cmd : String) :
    handleTcRawExecutes cmd =
      ((cmd.toList.takeWhile (fun c => c != spaceChar)) == "tc".toList ||
       (cmd.toList.takeWhile (fun c => c != spaceChar)) == "ip".toList) := by
  by_cases hc : cmd = ""
  · subst hc; rfl
  · obtain ⟨ts, hts⟩ := splitSpace_head cmd.toList
    simp only [String.toList] at hts
    simp [handleTcRawExecutes, hc, hts]

end NetSim
